import Mathlib

/-!
Shallow embedding of the VideoMind client-side application.

The repository contains two alternate React front-ends for a YouTube
analysis backend.  The code is pure request plumbing and presentation,
so the embedding models each operation as a pure function: an HTTP call
outcome is passed in explicitly as an Except value, a handler returns
the list of network requests it issues, and component state updates are
explicit state-passing functions.

Source mapping:
  src/unnamed/part_000  = src/services/api.js        (HTTP wrapper, endpoints)
  src/unnamed/part_001  = App.jsx of the primary UI  (page-level state)
  src/unnamed/part_002  = AnalysisResults.jsx and VideoAnalyzer.jsx
  src/frontend/src/App.jsx = the second, simpler front-end
-/

/-- Error kinds produced by the HTTP client wrapper response interceptor
(src/services/api.js, lines 22-41).  The source throws a plain Error whose
message encodes the kind; the inductive keeps the payload explicit. -/
inductive ApiFailure where
  | apiError (status : Nat) (message : String)
  | networkError (message : String)
  | requestError (message : String)
deriving DecidableEq, Repr

/-- JS logical-or over a possibly absent string field: a present, non-empty
value wins, otherwise the default is used (models a || b on strings where
the empty string is falsy). -/
def jsOr (a : Option String) (b : String) : String :=
  match a with
  | some s => if s = "" then b else s
  | none => b

/-- JS logical-or over two strings: the first wins unless it is empty. -/
def jsOrStr (a b : String) : String :=
  if a = "" then b else a

/-- The data object of an axios error response: the interceptor reads the
optional detail and message fields. -/
structure ServerErrorData where
  detail : Option String
  message : Option String
deriving DecidableEq, Repr

/-- A server response attached to an axios error (non-2xx status). -/
structure ServerResponse where
  status : Nat
  data : ServerErrorData
deriving DecidableEq, Repr

/-- An axios error as seen by the response interceptor: the underlying
message, an optional server response, and whether a request was sent
(error.request is truthy when the request went out but no response came). -/
structure AxiosError where
  message : String
  response : Option ServerResponse
  request : Bool
deriving DecidableEq, Repr

/-- The fixed advisory message thrown on transport failure
(src/services/api.js line 36). -/
def networkErrorText : String :=
  "Network Error: Unable to connect to the API server. Make sure the backend is running on http://localhost:8000"

/-- The response interceptor of src/services/api.js (lines 27-40): a server
response yields an apiError with the HTTP status and the detail/message
field (falling back to the raw error text), a sent-but-unanswered request
yields a networkError with a fixed message, anything else a requestError. -/
def responseInterceptor (e : AxiosError) : ApiFailure :=
  match e.response with
  | some r => ApiFailure.apiError r.status (jsOr r.data.detail (jsOr r.data.message e.message))
  | none =>
    if e.request then ApiFailure.networkError networkErrorText
    else ApiFailure.requestError e.message

/-- The message of the Error object the interceptor throws, as the page
components observe it via err.message. -/
def failureMessage : ApiFailure → String
  | ApiFailure.apiError status message => "API Error (" ++ toString status ++ "): " ++ message
  | ApiFailure.networkError message => message
  | ApiFailure.requestError message => "Request Error: " ++ message

/-- A language catalog entry (src/services/api.js fallback list shape). -/
structure LanguageInfo where
  code : String
  name : String
  native_name : String
  flag : String
  display : String
deriving DecidableEq, Repr

/-- The response shape of GET /api/languages. -/
structure LanguagesResponse where
  languages : List LanguageInfo
  total_languages : Nat
deriving DecidableEq, Repr

/-- The hardcoded fallback catalog of src/services/api.js lines 53-67. -/
def fallbackLanguagesResponse : LanguagesResponse :=
  { languages := [
      { code := "en", name := "English", native_name := "English", flag := "🇺🇸", display := "🇺🇸 English" },
      { code := "es", name := "Spanish", native_name := "Español", flag := "🇪🇸", display := "🇪🇸 Español" },
      { code := "fr", name := "French", native_name := "Français", flag := "🇫🇷", display := "🇫🇷 Français" },
      { code := "de", name := "German", native_name := "Deutsch", flag := "🇩🇪", display := "🇩🇪 Deutsch" },
      { code := "it", name := "Italian", native_name := "Italiano", flag := "🇮🇹", display := "🇮🇹 Italiano" },
      { code := "ja", name := "Japanese", native_name := "日本語", flag := "🇯🇵", display := "🇯🇵 日本語" },
      { code := "ko", name := "Korean", native_name := "한국어", flag := "🇰🇷", display := "🇰🇷 한국어" },
      { code := "zh", name := "Chinese", native_name := "中文", flag := "🇨🇳", display := "🇨🇳 中文" },
      { code := "hi", name := "Hindi", native_name := "हिन्दी", flag := "🇮🇳", display := "🇮🇳 हिन्दी" },
      { code := "ar", name := "Arabic", native_name := "العربية", flag := "🇸🇦", display := "🇸🇦 العربية" } ],
    total_languages := 10 }

/-- getSupportedLanguages of src/services/api.js lines 46-69, applied to the
outcome of the GET /api/languages call: on success it returns the response
data, on any failure it swallows the error and returns the fallback catalog.
The total return type records that it never raises. -/
def getSupportedLanguages (outcome : Except ApiFailure LanguagesResponse) : LanguagesResponse :=
  match outcome with
  | Except.ok r => r
  | Except.error _ => fallbackLanguagesResponse

/-- The string rendered for a language in the output-language select
(AnalysisResults/VideoAnalyzer source, option elements showing lang.display). -/
def optionLabel (lang : LanguageInfo) : String :=
  lang.display

/-- Body of POST /api/advanced-summary
(src/services/api.js lines 80-85). -/
structure AdvancedSummaryBody where
  url : String
  output_language : String
  auto_detect_video_language : Bool
  video_language_hint : Option String
deriving DecidableEq, Repr

/-- Body of POST /api/advanced-query
(src/services/api.js lines 103-108). -/
structure AdvancedQueryBody where
  transcript : String
  query : String
  output_language : String
  query_language : Option String
deriving DecidableEq, Repr

/-- A network request either front-end can issue.  The constructor fixes the
endpoint; requestPath and requestMethod recover the wire-level fields. -/
inductive ApiRequest where
  | advancedSummary (body : AdvancedSummaryBody)
  | advancedQuery (body : AdvancedQueryBody)
  | languagesGet
  | healthGet
  | summaryV2 (url : String) (agent : Option String)
  | queryV2 (transcript : String) (query : String)
deriving DecidableEq, Repr

/-- The path each request is sent to. -/
def requestPath : ApiRequest → String
  | ApiRequest.advancedSummary _ => "/api/advanced-summary"
  | ApiRequest.advancedQuery _ => "/api/advanced-query"
  | ApiRequest.languagesGet => "/api/languages"
  | ApiRequest.healthGet => "/health"
  | ApiRequest.summaryV2 _ _ => "/api/summary"
  | ApiRequest.queryV2 _ _ => "/api/query"

/-- HTTP method of a request. -/
inductive HttpMethod where
  | get
  | post
deriving DecidableEq, Repr

/-- The method each request uses. -/
def requestMethod : ApiRequest → HttpMethod
  | ApiRequest.advancedSummary _ => HttpMethod.post
  | ApiRequest.advancedQuery _ => HttpMethod.post
  | ApiRequest.languagesGet => HttpMethod.get
  | ApiRequest.healthGet => HttpMethod.get
  | ApiRequest.summaryV2 _ _ => HttpMethod.post
  | ApiRequest.queryV2 _ _ => HttpMethod.post

/-- The single request analyzeVideoAdvanced issues
(src/services/api.js lines 78-91): one POST with the auto-detect flag
hardwired to true.  Errors are logged and rethrown unchanged, so the
response side is the identity on outcomes. -/
def analyzeVideoAdvanced (url outputLanguage : String) (videoLanguageHint : Option String) :
    ApiRequest :=
  ApiRequest.advancedSummary
    { url := url, output_language := outputLanguage,
      auto_detect_video_language := true, video_language_hint := videoLanguageHint }

/-- The single request queryTranscriptAdvanced issues
(src/services/api.js lines 101-114). -/
def queryTranscriptAdvanced (transcript query outputLanguage : String)
    (queryLanguage : Option String) : ApiRequest :=
  ApiRequest.advancedQuery
    { transcript := transcript, query := query,
      output_language := outputLanguage, query_language := queryLanguage }

/-- Backward compatibility wrapper (src/services/api.js line 117): calls the
advanced operation with the hint left at its default null. -/
def analyzeVideo (url language : String) : ApiRequest :=
  analyzeVideoAdvanced url language none

/-- Backward compatibility wrapper (src/services/api.js line 118). -/
def queryTranscript (transcript query language : String) : ApiRequest :=
  queryTranscriptAdvanced transcript query language none

/-- Response shape of GET /health as far as checkApiHealth reads it. -/
structure HealthResponse where
  status : Nat
deriving DecidableEq, Repr

/-- checkApiHealth of src/services/api.js lines 124-131, applied to the
outcome of the GET /health call: true exactly on a status 200 success,
false on every error; total, so it never raises. -/
def checkApiHealth (outcome : Except ApiFailure HealthResponse) : Bool :=
  match outcome with
  | Except.ok response => response.status == 200
  | Except.error _ => false

/-- One character of a YouTube video id: the class 0-9A-Za-z_- of the
validation regexes. -/
def youtubeIdChar (c : Char) : Bool :=
  (decide ('0' ≤ c) && decide (c ≤ '9'))
    || (decide ('A' ≤ c) && decide (c ≤ 'Z'))
    || (decide ('a' ≤ c) && decide (c ≤ 'z'))
    || c == '_' || c == '-'

/-- True when the next 11 characters exist and are all id characters. -/
def youtubeIdTail (s : List Char) : Bool :=
  ((s.take 11).length == 11) && (s.take 11).all youtubeIdChar

/-- True when the literal occurs at the head of s, immediately followed by an
11-character id. -/
def litThenId (lit : List Char) (s : List Char) : Bool :=
  lit.isPrefixOf s && youtubeIdTail (s.drop lit.length)

/-- Scan every position of s for the literal followed by an 11-character id,
as an unanchored regex test does. -/
def containsLitId (lit : List Char) : List Char → Bool
  | [] => false
  | c :: s => litThenId lit (c :: s) || containsLitId lit s

/-- validateYouTubeUrl of VideoAnalyzer.jsx: the url passes when any of the
four patterns (watch, short-link, embed, versioned-path) matches somewhere
in the string, each requiring an 11-character id right after the literal. -/
def validateYouTubeUrl (url : String) : Bool :=
  containsLitId "youtube.com/watch?v=".data url.data
    || containsLitId "youtu.be/".data url.data
    || containsLitId "youtube.com/embed/".data url.data
    || containsLitId "youtube.com/v/".data url.data

/-- Drop leading whitespace characters. -/
def trimLeftChars : List Char → List Char
  | [] => []
  | c :: s => if c.isWhitespace then trimLeftChars s else c :: s

/-- The trim of JS string semantics (whitespace stripped from both ends),
written structurally so it evaluates in the kernel. -/
def jsTrim (s : String) : String :=
  String.mk (trimLeftChars (trimLeftChars s.data.reverse).reverse)

/-- handleSubmit of VideoAnalyzer.jsx (primary front-end), returning the list
of network requests the submission issues: empty input and pattern failures
are rejected locally, a valid url issues the one advanced-summary POST with
an empty hint coerced to null (videoLanguageHint || null). -/
def handleSubmitV1 (url outputLanguage videoLanguageHint : String) : List ApiRequest :=
  if jsTrim url = "" then []
  else if validateYouTubeUrl url then
    [analyzeVideoAdvanced url outputLanguage
      (if videoLanguageHint = "" then none else some videoLanguageHint)]
  else []

/-- The agents map of the second front-end (frontend/src/App.jsx lines 25-29),
indexed by the active tab key. -/
def agents (activeAgent : String) : Option String :=
  if activeAgent = "agent1" then some "gemini"
  else if activeAgent = "agent2" then some "gpt-3.5-turbo"
  else if activeAgent = "agent3" then some "claude"
  else none

/-- handleSubmit of the second front-end (frontend/src/App.jsx lines 32-46):
only empty input is rejected; any non-empty string is POSTed to /api/summary
with no pattern validation. -/
def handleSubmitV2 (inputUrl activeAgent : String) : List ApiRequest :=
  if inputUrl = "" then []
  else [ApiRequest.summaryV2 inputUrl (agents activeAgent)]

/-- The slice of an AnalysisResult the claims touch; remaining fields
(metadata, sentiment, themes, word cloud) are presentation-only. -/
structure AnalysisData where
  transcript : String
  summary : String
  video_language : String
  output_language : String
deriving DecidableEq, Repr

/-- handleQuery of the primary front-end App.jsx (src/unnamed/part_001 lines
29-42), returning the requests it issues: no analysis data or an empty
transcript is a no-op (analysisData?.transcript is falsy), otherwise one
advanced-query POST with the cached transcript and a null query language. -/
def handleQueryV1 (analysisData : Option AnalysisData) (selectedLanguage query : String) :
    List ApiRequest :=
  match analysisData with
  | none => []
  | some d =>
    if d.transcript = "" then []
    else [queryTranscriptAdvanced d.transcript query selectedLanguage none]

/-- handleQuery of the second front-end (frontend/src/App.jsx lines 49-62):
an empty question or an empty stored transcript is a no-op. -/
def handleQueryV2 (userQuery transcript : String) : List ApiRequest :=
  if userQuery = "" then []
  else if transcript = "" then []
  else [ApiRequest.queryV2 transcript userQuery]

/-- Page-level state of the primary front-end App.jsx. -/
structure AppStateV1 where
  analysisData : Option AnalysisData
  loading : Bool
  error : Option String
  selectedLanguage : String
deriving DecidableEq, Repr

/-- handleAnalyzeVideo of the primary front-end App.jsx (src/unnamed/part_001
lines 13-27) as a state transition on the outcome of the analyze call: it
first clears the error and the previous result and records the language,
then stores the new data on success or the error message (err.message with
a fixed default for an empty message) on failure, and clears loading. -/
def handleAnalyzeVideo (st : AppStateV1) (outputLanguage : String)
    (outcome : Except ApiFailure AnalysisData) : AppStateV1 :=
  let started : AppStateV1 :=
    { st with
      loading := true
      error := none
      analysisData := none
      selectedLanguage := outputLanguage }
  let settled : AppStateV1 :=
    match outcome with
    | Except.ok d => { started with analysisData := some d }
    | Except.error e =>
        { started with error := some (jsOrStr (failureMessage e) "Failed to analyze video") }
  { settled with loading := false }

/-- One atom of the modeled regex fragment: a literal character or the dot. -/
inductive RegexAtom where
  | lit (c : Char)
  | anyChar
deriving DecidableEq, Repr

/-- Characters with special meaning in a JS regular expression source. -/
def regexSpecialChars : List Char :=
  ['.', '*', '+', '?', '^', '$', '\x7b', '\x7d', '(', ')', '|', '[', ']', '\\']

/-- Compile one character of the search term the way new RegExp(term) reads
it: a dot becomes the any-character atom, other special characters leave the
modeled fragment (none), everything else is a literal. -/
def compileAtom (c : Char) : Option RegexAtom :=
  if c = '.' then some RegexAtom.anyChar
  else if regexSpecialChars.contains c then none
  else some (RegexAtom.lit c)

/-- A character is regex-safe when new RegExp treats it as a plain literal. -/
def regexSafeChar (c : Char) : Bool :=
  !(regexSpecialChars.contains c)

/-- Compile the whole search term; none when any character is a regex
operator outside the modeled fragment. -/
def compileTerm : List Char → Option (List RegexAtom)
  | [] => some []
  | c :: cs =>
    match compileAtom c, compileTerm cs with
    | some a, some p => some (a :: p)
    | _, _ => none

/-- JS line terminators, which the dot does not match without the s flag. -/
def isLineTerminator (c : Char) : Bool :=
  c == '\n' || c == '\r' || c == '\u2028' || c == '\u2029'

/-- Case-insensitive single-character matching (the i flag); the dot matches
any character except a line terminator. -/
def atomMatch : RegexAtom → Char → Bool
  | RegexAtom.lit a, c => a.toLower == c.toLower
  | RegexAtom.anyChar, c => !(isLineTerminator c)

/-- Match the pattern at the start of s, returning the consumed characters
and the rest. -/
def matchHere : List RegexAtom → List Char → Option (List Char × List Char)
  | [], s => some ([], s)
  | _ :: _, [] => none
  | a :: p, c :: s =>
    if atomMatch a c then
      match matchHere p s with
      | some (m, r) => some (c :: m, r)
      | none => none
    else none

/-- The replacement wrapper of highlightSearchTerm, around the matched text. -/
def markOpenTag : List Char := "<mark class=\"bg-yellow-200\">".data

/-- The closing half of the replacement wrapper. -/
def markCloseTag : List Char := "</mark>".data

/-- Global replace (the g flag): scan left to right, wrap every leftmost
non-overlapping match, copy unmatched characters through.  The fuel
argument only bounds the recursion; fuel = length of the text suffices
because every step consumes at least one character of a non-empty text
when the pattern is non-empty. -/
def replaceGo (p : List RegexAtom) : Nat → List Char → List Char
  | 0, s => s
  | _ + 1, [] => []
  | fuel + 1, c :: t =>
    match matchHere p (c :: t) with
    | some (m, r) => markOpenTag ++ m ++ markCloseTag ++ replaceGo p fuel r
    | none => c :: replaceGo p fuel t

/-- highlightSearchTerm of AnalysisResults.jsx lines 43-47: an empty term
returns the text unchanged, otherwise the term is interpolated unescaped
into new RegExp with flags gi and every match is wrapped in a mark tag.
Returns none when the term uses regex syntax outside the modeled fragment
(operators or invalid source); within the fragment it computes exactly what
the JS replace computes. -/
def highlightSearchTerm (text term : String) : Option String :=
  if term = "" then some text
  else
    match compileTerm term.data with
    | none => none
    | some p => some (String.mk (replaceGo p text.data.length text.data))

/-- Literal variant of matchHere: the next characters must equal the term
characters up to case. -/
def litMatchHere : List Char → List Char → Option (List Char × List Char)
  | [], s => some ([], s)
  | _ :: _, [] => none
  | a :: p, c :: s =>
    if a.toLower == c.toLower then
      match litMatchHere p s with
      | some (m, r) => some (c :: m, r)
      | none => none
    else none

/-- Literal variant of replaceGo: wrap every leftmost non-overlapping
case-insensitive occurrence of the term characters. -/
def litGo (p : List Char) : Nat → List Char → List Char
  | 0, s => s
  | _ + 1, [] => []
  | fuel + 1, c :: t =>
    match litMatchHere p (c :: t) with
    | some (m, r) => markOpenTag ++ m ++ markCloseTag ++ litGo p fuel r
    | none => c :: litGo p fuel t

/-- Modelled from the spec words: marks each leftmost, non-overlapping,
case-insensitive occurrence of the search term as a substring of the text,
leaving everything else unchanged. -/
def specMarkOccurrences (text term : String) : String :=
  if term = "" then text
  else String.mk (litGo term.data text.data.length text.data)

/-- C2: for every failure of the catalog fetch, getSupportedLanguages
returns a result rather than raising (its return type is total), and the
fallback result has exactly 10 languages with codes en, es, fr, de, it,
ja, ko, zh, hi, ar and total_languages = 10. -/
theorem c2_language_fallback (e : ApiFailure) :
    (getSupportedLanguages (Except.error e)).languages.length = 10
    ∧ (getSupportedLanguages (Except.error e)).languages.map LanguageInfo.code
        = ["en", "es", "fr", "de", "it", "ja", "ko", "zh", "hi", "ar"]
    ∧ (getSupportedLanguages (Except.error e)).total_languages = 10 :=
  ⟨rfl, rfl, rfl⟩

/-- C9: the backward-compatibility wrappers are extensionally equal to the
advanced operations with their optional language argument at the default
null: they issue identical requests for all inputs. -/
theorem c9_compat_wrappers :
    (∀ url language, analyzeVideo url language = analyzeVideoAdvanced url language none)
    ∧ (∀ transcript query language,
        queryTranscript transcript query language
          = queryTranscriptAdvanced transcript query language none) :=
  ⟨fun _ _ => rfl, fun _ _ _ => rfl⟩

/-- C10: checkApiHealth is total over outcomes (it returns a Bool and never
raises), returns true exactly when the GET /health call succeeded with
status 200, and returns false on every error. -/
theorem c10_health_check (o : Except ApiFailure HealthResponse) :
    (checkApiHealth o = true ↔ ∃ r, o = Except.ok r ∧ r.status = 200)
    ∧ ∀ e, checkApiHealth (Except.error e) = false := by
  constructor
  · cases o with
    | ok r =>
      simp only [checkApiHealth, beq_iff_eq]
      constructor
      · intro h
        exact ⟨r, rfl, h⟩
      · rintro ⟨r', hr, hs⟩
        injection hr with h
        rw [h]
        exact hs
    | error e =>
      simp [checkApiHealth]
  · intro e
    rfl

/-- C6: when the analysis call fails, the page-level state afterwards holds
no analysis result (the prior result was cleared, not left stale) and an
error message derived from the propagated error; and for every outcome the
final state is independent of the previous state, so each submission
replaces the previous result wholesale. -/
theorem c6_error_clears_result (st st' : AppStateV1) (outputLanguage : String)
    (e : ApiFailure) (o : Except ApiFailure AnalysisData) :
    (handleAnalyzeVideo st outputLanguage (Except.error e)).analysisData = none
    ∧ (handleAnalyzeVideo st outputLanguage (Except.error e)).error
        = some (jsOrStr (failureMessage e) "Failed to analyze video")
    ∧ handleAnalyzeVideo st outputLanguage o = handleAnalyzeVideo st' outputLanguage o := by
  refine ⟨rfl, rfl, ?_⟩
  cases o <;> rfl

/-- C8 counterexample: on the fallback path the rendered option label for
the first entry (code en) is the US flag, a space, then English, which is
not the plain concatenation flag ++ native_name; in fact no fallback entry
satisfies the claimed equation. -/
theorem c8_counterexample :
    (((getSupportedLanguages (Except.error (ApiFailure.networkError "down"))).languages.map
        optionLabel).head? = some "🇺🇸 English")
    ∧ (((getSupportedLanguages (Except.error (ApiFailure.networkError "down"))).languages.map
        (fun l => l.flag ++ l.native_name)).head? = some "🇺🇸English")
    ∧ ((getSupportedLanguages (Except.error (ApiFailure.networkError "down"))).languages.all
        (fun l => optionLabel l == l.flag ++ l.native_name)) = false := by
  refine ⟨rfl, rfl, ?_⟩
  decide

/-- C8 (amended): the display string rendered for a language equals
flag ++ a single space ++ native_name for every entry of the built-in
fallback list, and on catalog success the rendered string is exactly the
display field the catalog supplied. -/
theorem c8_display_amended (e : ApiFailure) (l : LanguageInfo) :
    ((getSupportedLanguages (Except.error e)).languages.all
        (fun x => optionLabel x == x.flag ++ " " ++ x.native_name)) = true
    ∧ optionLabel l = l.display := by
  refine ⟨?_, rfl⟩
  show (fallbackLanguagesResponse.languages.all
    (fun x => optionLabel x == x.flag ++ " " ++ x.native_name)) = true
  decide

/-- C1 counterexample: the string not-a-url fails all four URL patterns,
yet submitting it in the second front-end issues a POST to /api/summary,
so the claim does not hold for both front-end implementations. -/
theorem c1_counterexample :
    validateYouTubeUrl "not-a-url" = false
    ∧ handleSubmitV2 "not-a-url" "agent1"
        = [ApiRequest.summaryV2 "not-a-url" (some "gemini")]
    ∧ requestPath (ApiRequest.summaryV2 "not-a-url" (some "gemini")) = "/api/summary" := by
  refine ⟨?_, ?_, rfl⟩ <;> decide

/-- C1 (amended): in the VideoAnalyzer front-end every string failing all
four patterns is rejected locally and no network call is made; the second
front-end performs no pattern validation, rejecting only empty input, and
every non-empty string triggers a POST to /api/summary. -/
theorem c1_url_validation_amended (url outputLanguage hint inputUrl activeAgent : String) :
    (validateYouTubeUrl url = false → handleSubmitV1 url outputLanguage hint = [])
    ∧ (inputUrl ≠ "" →
        handleSubmitV2 inputUrl activeAgent
          = [ApiRequest.summaryV2 inputUrl (agents activeAgent)]) := by
  constructor
  · intro h
    simp [handleSubmitV1, h]
  · intro h
    simp [handleSubmitV2, h]

/-- C1 witness: a concrete invalid URL is a local no-op in the first
front-end, and a concrete non-matching non-empty string still produces a
network request in the second. -/
theorem c1_url_validation_amended_witness :
    (validateYouTubeUrl "https://example.com/watch" = false
      ∧ handleSubmitV1 "https://example.com/watch" "en" "" = [])
    ∧ ("not-a-url" ≠ ""
      ∧ handleSubmitV2 "not-a-url" "agent2"
          = [ApiRequest.summaryV2 "not-a-url" (some "gpt-3.5-turbo")]) :=
  ⟨⟨by decide,
    (c1_url_validation_amended "https://example.com/watch" "en" "" "not-a-url" "agent2").1
      (by decide)⟩,
   ⟨by decide,
    (c1_url_validation_amended "https://example.com/watch" "en" "" "not-a-url" "agent2").2
      (by decide)⟩⟩

/-- C3: the response interceptor normalizes every failed call into exactly
one of three kinds: a received server response yields an apiError with the
HTTP status and the detail/message field (falling back to the raw error
text when neither is present), a sent-but-unanswered request yields a
networkError with the fixed advisory message, and anything else yields a
requestError wrapping the underlying message. -/
theorem c3_error_normalization (e : AxiosError) :
    (∀ r, e.response = some r →
        responseInterceptor e
          = ApiFailure.apiError r.status (jsOr r.data.detail (jsOr r.data.message e.message))
        ∧ (r.data.detail = none → r.data.message = none →
            responseInterceptor e = ApiFailure.apiError r.status e.message))
    ∧ (e.response = none → e.request = true →
        responseInterceptor e = ApiFailure.networkError networkErrorText)
    ∧ (e.response = none → e.request = false →
        responseInterceptor e = ApiFailure.requestError e.message) := by
  refine ⟨?_, ?_, ?_⟩
  · intro r hr
    constructor
    · unfold responseInterceptor
      rw [hr]
    · intro h1 h2
      unfold responseInterceptor
      rw [hr]
      simp [jsOr, h1, h2]
  · intro h1 h2
    unfold responseInterceptor
    rw [h1]
    simp [h2]
  · intro h1 h2
    unfold responseInterceptor
    rw [h1]
    simp [h2]

/-- C3 witness: a concrete server error with no structured detail or
message falls back to the raw error text. -/
theorem c3_error_normalization_witness :
    responseInterceptor
        { message := "timeout", response := some { status := 500, data := { detail := none, message := none } },
          request := true }
      = ApiFailure.apiError 500 "timeout" :=
  ((c3_error_normalization
      { message := "timeout", response := some { status := 500, data := { detail := none, message := none } },
        request := true }).1
    { status := 500, data := { detail := none, message := none } } rfl).2 rfl rfl

/-- C4: a valid submission with no video-language hint issues exactly the
one POST to /api/advanced-summary whose body is the url, the output
language, the auto-detect flag hardwired to true, and a null hint (the
empty hint string is coerced to null); and the advanced operation sets the
auto-detect flag to true for every input. -/
theorem c4_analyze_request (url outputLanguage : String)
    (hvalid : validateYouTubeUrl url = true) (hne : jsTrim url ≠ "") :
    handleSubmitV1 url outputLanguage ""
      = [ApiRequest.advancedSummary
          { url := url, output_language := outputLanguage,
            auto_detect_video_language := true, video_language_hint := none }]
    ∧ (∀ u L h, analyzeVideoAdvanced u L h
        = ApiRequest.advancedSummary
            { url := u, output_language := L,
              auto_detect_video_language := true, video_language_hint := h })
    ∧ ((handleSubmitV1 url outputLanguage "").map requestPath).head?
        = some "/api/advanced-summary"
    ∧ ((handleSubmitV1 url outputLanguage "").map requestMethod).head?
        = some HttpMethod.post := by
  have hmain : handleSubmitV1 url outputLanguage ""
      = [ApiRequest.advancedSummary
          { url := url, output_language := outputLanguage,
            auto_detect_video_language := true, video_language_hint := none }] := by
    simp [handleSubmitV1, hvalid, hne, analyzeVideoAdvanced]
  refine ⟨hmain, fun _ _ _ => rfl, ?_, ?_⟩ <;> rw [hmain] <;> rfl

/-- C4 witness: the spec scenario url with output language ko issues the
single expected POST. -/
theorem c4_analyze_request_witness :
    (validateYouTubeUrl "https://www.youtube.com/watch?v=dQw4w9WgXcQ" = true
      ∧ jsTrim "https://www.youtube.com/watch?v=dQw4w9WgXcQ" ≠ "")
    ∧ handleSubmitV1 "https://www.youtube.com/watch?v=dQw4w9WgXcQ" "ko" ""
        = [ApiRequest.advancedSummary
            { url := "https://www.youtube.com/watch?v=dQw4w9WgXcQ", output_language := "ko",
              auto_detect_video_language := true, video_language_hint := none }] :=
  ⟨⟨by decide, by decide⟩,
   (c4_analyze_request "https://www.youtube.com/watch?v=dQw4w9WgXcQ" "ko"
      (by decide) (by decide)).1⟩

/-- C5: whenever the stored transcript is empty or absent, the query
action is a no-op in both front-end implementations, for every value of
the question text: no POST to a query endpoint is issued. -/
theorem c5_query_gate (d : AnalysisData) (selectedLanguage query userQuery : String)
    (hd : d.transcript = "") :
    handleQueryV1 none selectedLanguage query = []
    ∧ handleQueryV1 (some d) selectedLanguage query = []
    ∧ handleQueryV2 userQuery "" = [] := by
  refine ⟨rfl, ?_, ?_⟩
  · simp [handleQueryV1, hd]
  · unfold handleQueryV2
    by_cases h : userQuery = "" <;> simp [h]

/-- C5 witness: with an empty stored transcript, a concrete question is a
no-op in both front-ends. -/
theorem c5_query_gate_witness :
    ((⟨"", "a summary", "en", "en"⟩ : AnalysisData).transcript = "")
    ∧ handleQueryV1 (some ⟨"", "a summary", "en", "en"⟩) "en" "What are the takeaways" = []
    ∧ handleQueryV2 "What are the takeaways" "" = [] :=
  ⟨rfl,
   (c5_query_gate ⟨"", "a summary", "en", "en"⟩ "en" "What are the takeaways"
      "What are the takeaways" rfl).2.1,
   (c5_query_gate ⟨"", "a summary", "en", "en"⟩ "en" "What are the takeaways"
      "What are the takeaways" rfl).2.2⟩

/-- On a pattern of literal atoms, regex matching coincides with literal
case-insensitive matching. -/
theorem matchHere_map_lit (p : List Char) :
    ∀ s, matchHere (p.map RegexAtom.lit) s = litMatchHere p s := by
  induction p with
  | nil => intro s; rfl
  | cons a p ih =>
    intro s
    cases s with
    | nil => rfl
    | cons c t =>
      simp only [List.map, matchHere, litMatchHere, atomMatch, ih]

/-- On a pattern of literal atoms, the global regex replace coincides with
the literal case-insensitive replace, at every fuel. -/
theorem replaceGo_map_lit (p : List Char) (fuel : Nat) :
    ∀ s, replaceGo (p.map RegexAtom.lit) fuel s = litGo p fuel s := by
  induction fuel with
  | zero => intro s; rfl
  | succ fuel ih =>
    intro s
    cases s with
    | nil => rfl
    | cons c t =>
      simp only [replaceGo, litGo, matchHere_map_lit]
      cases h : litMatchHere p (c :: t) with
      | none => simp [ih]
      | some mr => cases mr with | mk m r => simp [ih]

/-- A term of regex-safe characters compiles to its characters as literal
atoms. -/
theorem compileTerm_safe (s : List Char) (h : ∀ c ∈ s, regexSafeChar c = true) :
    compileTerm s = some (s.map RegexAtom.lit) := by
  induction s with
  | nil => rfl
  | cons c cs ih =>
    have hc : regexSafeChar c = true := h c (by simp)
    have hcs : ∀ x ∈ cs, regexSafeChar x = true := fun x hx => h x (by simp [hx])
    have hnc : regexSpecialChars.contains c = false := by
      unfold regexSafeChar at hc
      simpa using hc
    have hdot : ¬(c = '.') := by
      intro hd
      rw [hd] at hnc
      simp [regexSpecialChars] at hnc
    have h1 : compileAtom c = some (RegexAtom.lit c) := by
      unfold compileAtom
      rw [if_neg hdot, hnc]
      rfl
    simp only [compileTerm, h1, ih hcs]
    rfl

/-- C7 counterexample: with the search term being a single dot and the text
ab, the term does not occur in the text at all, yet the rendered output
marks every character, because the term is interpolated into the regular
expression unescaped; so the highlighting does not mark occurrences of the
term for every term. -/
theorem c7_counterexample :
    highlightSearchTerm "ab" "." ≠ some (specMarkOccurrences "ab" ".")
    ∧ specMarkOccurrences "ab" "." = "ab"
    ∧ highlightSearchTerm "ab" "."
        = some "<mark class=\"bg-yellow-200\">a</mark><mark class=\"bg-yellow-200\">b</mark>" := by
  refine ⟨?_, ?_, ?_⟩ <;> decide

/-- C7 (amended): for every transcript text and every search term built
only of regex-safe characters (no regular-expression metacharacters), the
rendered output wraps exactly the leftmost non-overlapping case-insensitive
occurrences of the term in mark tags; the stored transcript itself is never
modified, since the rewrite happens only in the derived rendered string. -/
theorem c7_highlight_amended (text term : String)
    (h : ∀ c ∈ term.data, regexSafeChar c = true) :
    highlightSearchTerm text term = some (specMarkOccurrences text term) := by
  unfold highlightSearchTerm specMarkOccurrences
  by_cases hterm : term = ""
  · simp [hterm]
  · rw [if_neg hterm, if_neg hterm, compileTerm_safe term.data h]
    simp only [replaceGo_map_lit]

/-- C7 witness: a concrete safe term is highlighted exactly at its
case-insensitive occurrences. -/
theorem c7_highlight_amended_witness :
    (∀ c ∈ "hello".data, regexSafeChar c = true)
    ∧ highlightSearchTerm "Say Hello there" "hello"
        = some (specMarkOccurrences "Say Hello there" "hello") :=
  ⟨by decide, c7_highlight_amended "Say Hello there" "hello" (by decide)⟩
